import Mathlib

/-!
Shallow embedding of the lumino_ai recruiting pipeline
(`backend/lumino_graph.py`, `backend/agents/resume_parser.py`,
`backend/agents/evaluating_agent.py`, `backend/agents/messaging_agent.py`).

The three LLM collaborators (resume parser, evaluator, email generator) and
the SMTP transport are external services; they are modelled as function
parameters.  Python dictionaries produced by pydantic `model_dump()` are
modelled as association lists of `PyVal` so that `dict.get` semantics
(a key present with value `None` is NOT replaced by the default) is
preserved exactly.
-/

/-- A Python runtime value, as far as the pipeline state needs:
`None`, strings, ints, dicts and lists. -/
inductive PyVal where
  | vNone : PyVal
  | vStr : String → PyVal
  | vInt : Int → PyVal
  | vDict : List (String × PyVal) → PyVal
  | vList : List PyVal → PyVal

/-- Python `d.get(k, default)` on a dict modelled as an association list:
returns the stored value (even when it is `None`) whenever the key is
present, and the default only when the key is absent. -/
def pyGet (d : List (String × PyVal)) (k : String) (default : PyVal) : PyVal :=
  match d.find? (fun kv => kv.1 == k) with
  | some kv => kv.2
  | none => default

/-- Key lookup without a default (used to state that a key is absent). -/
def pyLookup (d : List (String × PyVal)) (k : String) : Option PyVal :=
  (d.find? (fun kv => kv.1 == k)).map (fun kv => kv.2)

mutual
/-- Python `str()` rendering as used by f-string interpolation in
`messaging_agent.py`; in this pipeline only `None`, strings and ints are
ever interpolated (container rendering is canonical, without the quoting
Python `repr` adds around inner strings, which no claim touches). -/
def PyVal.pyStr : PyVal → String
  | .vNone => "None"
  | .vStr s => s
  | .vInt n => toString n
  | .vDict d => "\x7b" ++ pyStrPairs d ++ "\x7d"
  | .vList l => "[" ++ pyStrElems l ++ "]"

def pyStrPairs : List (String × PyVal) → String
  | [] => ""
  | [(k, v)] => k ++ ": " ++ v.pyStr
  | (k, v) :: rest => k ++ ": " ++ v.pyStr ++ ", " ++ pyStrPairs rest

def pyStrElems : List PyVal → String
  | [] => ""
  | [v] => v.pyStr
  | v :: rest => v.pyStr ++ ", " ++ pyStrElems rest
end

/-- `needle` occurs as a contiguous list segment of `haystack`. -/
def listContains (needle : List Char) : List Char → Bool
  | [] => needle.isEmpty
  | c :: rest => needle.isPrefixOf (c :: rest) || listContains needle rest

/-- `needle` occurs as a contiguous substring of `haystack`. -/
def strContains (haystack needle : String) : Bool :=
  listContains needle.toList haystack.toList

/-- Python truthiness test `not x` for an optional string coming from
`os.getenv`: `None` and the empty string are falsy. -/
def pyFalsy : Option String → Bool
  | none => true
  | some s => s.isEmpty

/-- `Option String` value as dumped by pydantic `model_dump()`. -/
def optStr : Option String → PyVal
  | none => .vNone
  | some s => .vStr s

/-- `Option Int` value as dumped by pydantic `model_dump()`. -/
def optInt : Option Int → PyVal
  | none => .vNone
  | some n => .vInt n

/-! ## `agents/resume_parser.py` -/

/-- `WorkExperience(BaseModel)` from `resume_parser.py`. -/
structure WorkExperience where
  company : Option String
  role : Option String
  start_date : Option String
  end_date : Option String
  description : Option String
deriving DecidableEq

/-- `ResumeParsed(BaseModel)` from `resume_parser.py`: `full_name : str` is
required (never `None`), every other scalar field is `Optional`. -/
structure ResumeParsed where
  full_name : String
  email : Option String
  phone : Option String
  location : Option String
  linkedin : Option String
  years_experience : Option Int
  skills : List String
  highest_education : Option String
  work_experience : List WorkExperience
  certifications : List String
  languages : List String
  summary : Option String
deriving DecidableEq

/-- `model_dump()` of a `WorkExperience`. -/
def WorkExperience.model_dump (w : WorkExperience) : PyVal :=
  .vDict [("company", optStr w.company), ("role", optStr w.role),
          ("start_date", optStr w.start_date), ("end_date", optStr w.end_date),
          ("description", optStr w.description)]

/-- `model_dump()` of a `ResumeParsed`: every declared field is present in
the resulting dict, absent information appearing as `None`. -/
def ResumeParsed.model_dump (r : ResumeParsed) : List (String × PyVal) :=
  [("full_name", .vStr r.full_name),
   ("email", optStr r.email),
   ("phone", optStr r.phone),
   ("location", optStr r.location),
   ("linkedin", optStr r.linkedin),
   ("years_experience", optInt r.years_experience),
   ("skills", .vList (r.skills.map .vStr)),
   ("highest_education", optStr r.highest_education),
   ("work_experience", .vList (r.work_experience.map WorkExperience.model_dump)),
   ("certifications", .vList (r.certifications.map .vStr)),
   ("languages", .vList (r.languages.map .vStr)),
   ("summary", optStr r.summary)]

/-! ## `agents/evaluating_agent.py` -/

/-- `Evaluated(BaseModel)` from `evaluating_agent.py`.  Note: the schema
constrains `similarity_score` to be an integer and `reason` to be a string
— it carries NO range constraint on the score. -/
structure Evaluated where
  similarity_score : Int
  reason : String
deriving DecidableEq

/-- `model_dump()` of an `Evaluated`. -/
def Evaluated.model_dump (e : Evaluated) : List (String × PyVal) :=
  [("similarity_score", .vInt e.similarity_score), ("reason", .vStr e.reason)]

/-! ## `agents/messaging_agent.py` -/

/-- `EmailMessage(BaseModel)` from `messaging_agent.py` (the structured
output schema of the email-content generator). -/
structure EmailMessage where
  to_email : String
  subject : String
  body : String
deriving DecidableEq

/-- The MIME message built by `email_sending` (`email.message.EmailMessage`,
imported as `MimeEmail`): From, To, Subject headers plus the body. -/
structure MimeEmail where
  from_addr : String
  to_addr : String
  subject : String
  content : String
deriving DecidableEq

/-- The two transport credentials read from the environment by
`email_sending` (`os.getenv` returns `None` when unset). -/
structure Env where
  sender_email : Option String
  sender_password : Option String

/-- Outcome of `aiosmtplib.send`: success, or the exception message. -/
abbrev Transport := MimeEmail → Except String Unit

/-- Outcome of `messaging_agent.run` on a candidate-data payload: a
schema-conformant `EmailMessage`, or the exception message.  In the source
the payload is serialized with `json.dumps` into the fixed prompt
`"Create an email for this candidate: ..."`; the collaborator is modelled
as a function of the payload itself. -/
abbrev EmailGen := List (String × PyVal) → Except String EmailMessage

/-- The system prompt of `messaging_agent` (verbatim from
`messaging_agent.py`): the tone-threshold policy and content rules live
here, as instructions to the generator, not as code. -/
def messaging_system_prompt : String :=
"\nYou are an expert HR assistant for Lumino AI. \n\nTASK: Create personalized email content for job candidates based on their application data.\n\nYou will receive candidate information as JSON input. Use the ACTUAL values from this input, especially the candidate_name and candidate_email.\n\nBased on the similarity_score:\n- similarity_score >= 85: Congratulate and invite for interview\n- similarity_score < 85: Politely decline in a nice way and encourage future applications\n\nIMPORTANT RULES:\n- Do NOT mention the similarity score number or evaluation explanation in the email\n- Keep it professional and friendly\n- Focus ONLY on creating the email content (to_email, subject, body)\n- Do NOT call any tools - just return the email structure\n\nEmail should be warm, professional, and appropriate for the candidates score level.\n"

/-- The tone the messaging system prompt instructs the generator to take. -/
inductive EmailTone where
  | congratulateInvite : EmailTone
  | politeDecline : EmailTone
deriving DecidableEq

/-- The threshold rule stated in `messaging_system_prompt`
(`similarity_score >= 85: Congratulate and invite for interview`,
`similarity_score < 85: Politely decline ...`), as a function. -/
def promptTonePolicy (similarity_score : Int) : EmailTone :=
  if 85 ≤ similarity_score then .congratulateInvite else .politeDecline

/-- `email_sending` from `messaging_agent.py`: fails fast with an explicit
diagnostic string when either credential is missing/empty; otherwise builds
the MIME message and reports transport success or failure as a string.  It
never raises. -/
def email_sending (env : Env) (transport : Transport)
    (email_info : EmailMessage) : String :=
  if pyFalsy env.sender_email || pyFalsy env.sender_password then
    "Error: SENDER_EMAIL and SENDER_PASSWORD must be set in .env file"
  else
    let message : MimeEmail :=
      { from_addr := env.sender_email.getD "", to_addr := email_info.to_email,
        subject := email_info.subject, content := email_info.body }
    match transport message with
    | .ok _ => "Email successfully sent to " ++ email_info.to_email
    | .error e => "Failed to send email: " ++ e

/-- The dict returned by `create_and_send_email`: the generated content
plus the transport status, kept separately. -/
structure SendResult where
  to_email : PyVal
  subject : String
  body : String
  send_status : String

/-- `create_and_send_email` from `messaging_agent.py`: generate content,
then send; on any exception during generation, degrade to the templated
fallback built from `candidate_data.get` values (f-string rendering) with
subject `"Application Update"` and an `"Error: ..."` status. -/
def create_and_send_email (candidate_data : List (String × PyVal))
    (gen : EmailGen) (env : Env) (transport : Transport) : SendResult :=
  match gen candidate_data with
  | .ok email_content =>
      { to_email := .vStr email_content.to_email,
        subject := email_content.subject,
        body := email_content.body,
        send_status := email_sending env transport email_content }
  | .error e =>
      { to_email := pyGet candidate_data "candidate_email" (.vStr ""),
        subject := "Application Update",
        body := "Dear " ++ (pyGet candidate_data "candidate_name" (.vStr "Candidate")).pyStr
                 ++ ", thank you for your application.",
        send_status := "Error: " ++ e }

/-! ## `lumino_graph.py` -/

/-- `ApplicationState(TypedDict)` from `lumino_graph.py`.  The
`candidate_name` / `candidate_email` slots are annotated `str` but the
annotation is not enforced at runtime: `parse_resume` can store `None`
there, so they are modelled as `PyVal`. -/
structure ApplicationState where
  job_description : String
  resume_text : String
  parsed_resume : List (String × PyVal)
  evaluation : List (String × PyVal)
  email : List (String × PyVal)
  job_role : String
  candidate_name : PyVal
  candidate_email : PyVal

/-- `parse_resume` node: runs the parser on `state["resume_text"]`, stores
the dumped profile, and derives `candidate_name` / `candidate_email` via
`dict.get` with defaults `"Candidate"` / `"test@example.com"`. -/
def parse_resume (state : ApplicationState)
    (parser : String → ResumeParsed) : ApplicationState :=
  let pr := (parser state.resume_text).model_dump
  { state with
    parsed_resume := pr,
    candidate_name := pyGet pr "full_name" (.vStr "Candidate"),
    candidate_email := pyGet pr "email" (.vStr "test@example.com") }

/-- The prompt `evaluate_candidate` builds from the state (verbatim
f-string from `lumino_graph.py`). -/
def evaluation_prompt (state : ApplicationState) : String :=
  "Job description:\n" ++ state.job_description ++ "\n\nCandidate resume:\n"
    ++ state.resume_text

/-- `evaluate_candidate` node: runs the evaluator on the prompt built from
`job_description` and `resume_text` only, and merges the dumped result. -/
def evaluate_candidate (state : ApplicationState)
    (evaluator : String → Evaluated) : ApplicationState :=
  { state with
    evaluation := (evaluator (evaluation_prompt state)).model_dump }

/-- The `email_input` dict `send_email_node` assembles for the messaging
function (verbatim keys from `lumino_graph.py`). -/
def email_input (state : ApplicationState) : List (String × PyVal) :=
  [("candidate_name", state.candidate_name),
   ("candidate_email", state.candidate_email),
   ("job_title", .vStr state.job_role),
   ("similarity_score", pyGet state.evaluation "similarity_score" (.vInt 0)),
   ("evaluation_explanation", pyGet state.evaluation "reason" (.vStr "")),
   ("parsed_resume", .vDict state.parsed_resume)]

/-- `send_email_node` node: calls `create_and_send_email` and stores ONLY
the content fields `to_email` / `subject` / `body` in `state["email"]` —
the `send_status` component of the result is discarded. -/
def send_email_node (state : ApplicationState) (gen : EmailGen)
    (env : Env) (transport : Transport) : ApplicationState :=
  let result := create_and_send_email (email_input state) gen env transport
  { state with
    email := [("to_email", result.to_email),
              ("subject", .vStr result.subject),
              ("body", .vStr result.body)] }

/-! ### The graph topology (`StateGraph` wiring in `lumino_graph.py`) -/

/-- The nodes of the compiled workflow, plus langgraph's START/END. -/
inductive GNode where
  | START : GNode
  | resumeParser : GNode
  | evaluator : GNode
  | messaging : GNode
  | END : GNode
deriving DecidableEq, BEq

/-- The edge list exactly as added by `graph.add_edge` calls. -/
def graph_edges : List (GNode × GNode) :=
  [(.START, .resumeParser), (.resumeParser, .evaluator),
   (.evaluator, .messaging), (.messaging, .END)]

/-- Successor of a node in the graph (unique, since no conditional edges
are registered). -/
def nextNode (n : GNode) : Option GNode :=
  (graph_edges.find? (fun e => e.1 == n)).map (fun e => e.2)

/-- The node sequence obtained by following `nextNode` for `fuel` steps. -/
def traceFrom : Nat → GNode → List GNode
  | 0, n => [n]
  | fuel + 1, n =>
      n :: (match nextNode n with
            | some m => traceFrom fuel m
            | none => [])

/-- One full pipeline run: the compiled workflow threads the state through
the three nodes in edge order. -/
def run_pipeline (init : ApplicationState)
    (parser : String → ResumeParsed) (evaluator : String → Evaluated)
    (gen : EmailGen) (env : Env) (transport : Transport) : ApplicationState :=
  send_email_node
    (evaluate_candidate (parse_resume init parser) evaluator)
    gen env transport

/-! ## Concrete sample inputs used by witnesses and counterexamples -/

set_option maxRecDepth 100000

/-- A parsed resume whose `email` field is null (the parser found none). -/
def noEmailResume : ResumeParsed :=
  { full_name := "John Doe", email := none, phone := none, location := none,
    linkedin := none, years_experience := none, skills := [],
    highest_education := none, work_experience := [], certifications := [],
    languages := [], summary := none }

/-- A parsed resume with an extracted email address. -/
def janeResume : ResumeParsed :=
  { full_name := "Jane Doe", email := some "jane@mail.com", phone := none,
    location := none, linkedin := none, years_experience := some 5,
    skills := ["Python"], highest_education := none, work_experience := [],
    certifications := [], languages := [], summary := none }

/-- Initial state as the API caller (`main.py`) assembles it: the
`candidate_name` / `candidate_email` slots carry the values the applicant
typed into the form. -/
def formInitState : ApplicationState :=
  { job_description := "Senior Python Engineer, fraud detection experience required",
    resume_text := "Jane Doe, 5 years Python, built fraud-detection system at BankCo",
    parsed_resume := [], evaluation := [], email := [],
    job_role := "Senior Python Engineer",
    candidate_name := .vStr "Form Name",
    candidate_email := .vStr "form@caller.com" }

/-- An environment with both transport credentials absent. -/
def envMissing : Env := { sender_email := none, sender_password := none }

/-- A transport that would succeed if reached. -/
def okTransport : Transport := fun _ => .ok ()

/-- A generated email whose content is schema-conformant. -/
def sampleEmail : EmailMessage :=
  { to_email := "jane@mail.com", subject := "Congratulations",
    body := "We would like to invite you to an interview." }

/-- An evaluator collaborator returning a low score. -/
def evalLow : String → Evaluated := fun _ => ⟨42, "Weak overlap with the role."⟩

/-- An evaluator collaborator returning a high score. -/
def evalHigh : String → Evaluated := fun _ => ⟨95, "Strong match"⟩

/-- A generator whose output repeats the numeric score and the rationale. -/
def leakGen : EmailGen :=
  fun _ => .ok ⟨"jane@mail.com", "Your application",
                "Your score was 42. Weak overlap with the role."⟩

/-- A generator that raises (content generation fails). -/
def failGen : EmailGen := fun _ => .error "boom"

/-- A generator that returns `sampleEmail`. -/
def okGen : EmailGen := fun _ => .ok sampleEmail

/-! ## Claims -/

/-- C1 (counterexample): a full concrete run in which the transport step
fails because both credentials are absent.  The generated subject and body
are kept, but `create_and_send_email`'s `send_status` (which does contain
"Error") is dropped by `send_email_node`: the final state has no
`send_status` key and none of its email strings contains "Error", so no
transport-status marker is part of the run result delivered to the
caller. -/
theorem c1_counterexample_status_dropped_from_run_result :
    run_pipeline formInitState (fun _ => janeResume) evalHigh okGen envMissing okTransport =
      { job_description := formInitState.job_description,
        resume_text := formInitState.resume_text,
        parsed_resume := janeResume.model_dump,
        evaluation := [("similarity_score", .vInt 95), ("reason", .vStr "Strong match")],
        email := [("to_email", .vStr "jane@mail.com"),
                  ("subject", .vStr "Congratulations"),
                  ("body", .vStr "We would like to invite you to an interview.")],
        job_role := formInitState.job_role,
        candidate_name := .vStr "Jane Doe",
        candidate_email := .vStr "jane@mail.com" } ∧
    pyLookup (run_pipeline formInitState (fun _ => janeResume) evalHigh okGen envMissing okTransport).email
        "send_status" = none ∧
    strContains "Congratulations" "Error" = false ∧
    strContains "We would like to invite you to an interview." "Error" = false ∧
    strContains "jane@mail.com" "Error" = false ∧
    (create_and_send_email
        (email_input (evaluate_candidate (parse_resume formInitState (fun _ => janeResume)) evalHigh))
        okGen envMissing okTransport).send_status =
      "Error: SENDER_EMAIL and SENDER_PASSWORD must be set in .env file" :=
  ⟨rfl, rfl, rfl, rfl, rfl, rfl⟩

/-- C1 (amended): when the credentials are missing the run does not raise
— the generated content is merged into `state["email"]` untouched and the
stage-level `send_status` string contains "Error" — but that status string
is dropped by `send_email_node` and is NOT part of the run result. -/
theorem c1_amended_transport_failure_keeps_content_drops_status
    (state : ApplicationState) (ec : EmailMessage) (env : Env) (t : Transport)
    (h : (pyFalsy env.sender_email || pyFalsy env.sender_password) = true) :
    (send_email_node state (fun _ => .ok ec) env t).email =
      [("to_email", .vStr ec.to_email), ("subject", .vStr ec.subject),
       ("body", .vStr ec.body)] ∧
    pyLookup (send_email_node state (fun _ => .ok ec) env t).email "send_status" = none ∧
    (create_and_send_email (email_input state) (fun _ => .ok ec) env t).send_status =
      "Error: SENDER_EMAIL and SENDER_PASSWORD must be set in .env file" ∧
    strContains "Error: SENDER_EMAIL and SENDER_PASSWORD must be set in .env file" "Error" = true := by
  refine ⟨rfl, rfl, ?_, rfl⟩
  simp [create_and_send_email, email_sending, h]

/-- C1 witness: the amended theorem applied at a concrete state, generated
email and credential-free environment. -/
theorem c1_amended_witness :
    (send_email_node formInitState (fun _ => .ok sampleEmail) envMissing okTransport).email =
      [("to_email", .vStr sampleEmail.to_email), ("subject", .vStr sampleEmail.subject),
       ("body", .vStr sampleEmail.body)] ∧
    pyLookup (send_email_node formInitState (fun _ => .ok sampleEmail) envMissing okTransport).email
        "send_status" = none ∧
    (create_and_send_email (email_input formInitState) (fun _ => .ok sampleEmail) envMissing
        okTransport).send_status =
      "Error: SENDER_EMAIL and SENDER_PASSWORD must be set in .env file" ∧
    strContains "Error: SENDER_EMAIL and SENDER_PASSWORD must be set in .env file" "Error" = true :=
  c1_amended_transport_failure_keeps_content_drops_status formInitState sampleEmail envMissing
    okTransport rfl

/-- C2 (counterexample): an evaluator output with `similarity_score = 150`
passes the `Evaluated` schema (which has no range constraint) and is
merged into the state document unchanged — it is not rejected. -/
theorem c2_counterexample_out_of_range_score_merged :
    pyGet (evaluate_candidate formInitState (fun _ => ⟨150, "matched"⟩)).evaluation
        "similarity_score" .vNone = .vInt 150 ∧
    ¬((150 : Int) ≤ 100) :=
  ⟨rfl, by decide⟩

/-- C2 (amended): the Scoring stage merges the collaborator's output
verbatim; the `Evaluated` schema forces the score to be an integer and
the justification to be a string, but applies no range check, so any
integer score — in range or not — lands in `state["evaluation"]`. -/
theorem c2_amended_score_merged_without_range_check
    (state : ApplicationState) (f : String → Evaluated) :
    (evaluate_candidate state f).evaluation =
      [("similarity_score", .vInt (f (evaluation_prompt state)).similarity_score),
       ("reason", .vStr (f (evaluation_prompt state)).reason)] := rfl

/-- C3 (counterexample): a concrete run whose evaluator returns score 42
with rationale "Weak overlap with the role." and whose generator emits a
body repeating both; the body is merged verbatim, so the final email body
contains the literal score and the rationale substring. -/
theorem c3_counterexample_score_and_rationale_in_body :
    pyGet (run_pipeline formInitState (fun _ => janeResume) evalLow leakGen envMissing
        okTransport).email "body" .vNone =
      .vStr "Your score was 42. Weak overlap with the role." ∧
    strContains "Your score was 42. Weak overlap with the role." "42" = true ∧
    strContains "Your score was 42. Weak overlap with the role."
      "Weak overlap with the role." = true :=
  ⟨rfl, rfl, rfl⟩

/-- C3 (amended): the content policy exists only as an instruction in the
messaging system prompt ("Do NOT mention the similarity score number or
evaluation explanation in the email"); the code performs no check on the
generated body, which is merged into the state verbatim. -/
theorem c3_amended_policy_is_prompt_only_body_unchecked :
    strContains messaging_system_prompt
      "Do NOT mention the similarity score number or evaluation explanation in the email" = true ∧
    ∀ (state : ApplicationState) (gen : EmailGen) (env : Env) (t : Transport)
      (ec : EmailMessage), gen (email_input state) = .ok ec →
      pyGet (send_email_node state gen env t).email "body" .vNone = .vStr ec.body := by
  refine ⟨rfl, ?_⟩
  intro state gen env t ec h
  unfold send_email_node create_and_send_email
  rw [h]
  exact rfl

/-- C3 witness: the amended theorem applied to the concrete leaking
generator. -/
theorem c3_amended_witness :
    pyGet (send_email_node formInitState leakGen envMissing okTransport).email "body" .vNone =
      .vStr "Your score was 42. Weak overlap with the role." :=
  c3_amended_policy_is_prompt_only_body_unchecked.2 formInitState leakGen envMissing okTransport
    ⟨"jane@mail.com", "Your application", "Your score was 42. Weak overlap with the role."⟩ rfl

/-- C4: the tone policy the Notification stage gives its generator is the
threshold rule written in the messaging system prompt — both rule lines
are present verbatim — and that rule has an inclusive lower bound of 85 on
the upper tier: every score ≥ 85 (including exactly 85) selects the
congratulate-and-invite tone, every score < 85 the polite decline. -/
theorem c4_tone_threshold_85_inclusive_upper :
    strContains messaging_system_prompt
      "similarity_score >= 85: Congratulate and invite for interview" = true ∧
    strContains messaging_system_prompt
      "similarity_score < 85: Politely decline in a nice way and encourage future applications"
      = true ∧
    (∀ s : Int, 85 ≤ s → promptTonePolicy s = .congratulateInvite) ∧
    (∀ s : Int, s < 85 → promptTonePolicy s = .politeDecline) ∧
    promptTonePolicy 85 = .congratulateInvite := by
  refine ⟨rfl, rfl, ?_, ?_, rfl⟩
  · intro s h
    unfold promptTonePolicy
    rw [if_pos h]
  · intro s h
    unfold promptTonePolicy
    rw [if_neg (not_le.mpr h)]

/-- C4 witness: the threshold rule applied at the spec's example scores. -/
theorem c4_tone_threshold_witness :
    promptTonePolicy 95 = .congratulateInvite ∧ promptTonePolicy 40 = .politeDecline :=
  ⟨c4_tone_threshold_85_inclusive_upper.2.2.1 95 (by decide),
   c4_tone_threshold_85_inclusive_upper.2.2.2.1 40 (by decide)⟩

/-- C5 (counterexample): when the parser returns a resume with a null
`email`, `model_dump` still emits the key (with value `None`), so
`dict.get` returns `None` — `candidate_email` is left null, not set to the
sentinel `"test@example.com"`. -/
theorem c5_counterexample_null_email_not_sentinel :
    (parse_resume formInitState (fun _ => noEmailResume)).candidate_email = .vNone ∧
    PyVal.vNone ≠ .vStr "test@example.com" :=
  ⟨rfl, fun h => PyVal.noConfusion h⟩

/-- C5 (amended): after Extraction, `candidate_name` is exactly the
extracted `full_name` (always a string — the schema requires it, so the
"Candidate" default is dead) and `candidate_email` is exactly the
extracted email — `None` when the resume has none; the sentinel default
would only apply to an absent key, which `model_dump` never produces. -/
theorem c5_amended_candidate_fields_are_extracted_values
    (state : ApplicationState) (p : String → ResumeParsed) :
    (parse_resume state p).candidate_name = .vStr (p state.resume_text).full_name ∧
    (parse_resume state p).candidate_email = optStr (p state.resume_text).email :=
  ⟨rfl, rfl⟩

/-- C6 (counterexample): the Extraction stage writes more than its
`parsed_resume` output field — it overwrites `candidate_name` (here the
caller-supplied "Form Name" becomes the extracted "Jane Doe"). -/
theorem c6_counterexample_extraction_writes_candidate_fields :
    (parse_resume formInitState (fun _ => janeResume)).candidate_name = .vStr "Jane Doe" ∧
    formInitState.candidate_name = .vStr "Form Name" ∧
    PyVal.vStr "Jane Doe" ≠ PyVal.vStr "Form Name" :=
  ⟨rfl, rfl, by intro h; injection h with h2; exact absurd h2 (by decide)⟩

/-- C6 (amended): frame conditions of the three stages.  The inputs
`job_description`, `resume_text`, `job_role` are untouched by every stage;
Extraction writes `parsed_resume` AND the derived `candidate_name` /
`candidate_email`; Scoring writes only `evaluation`; Notification writes
only `email`; no stage touches a field an earlier stage wrote. -/
theorem c6_amended_stage_frame_conditions :
    (∀ (state : ApplicationState) (p : String → ResumeParsed),
      (parse_resume state p).job_description = state.job_description ∧
      (parse_resume state p).resume_text = state.resume_text ∧
      (parse_resume state p).job_role = state.job_role ∧
      (parse_resume state p).evaluation = state.evaluation ∧
      (parse_resume state p).email = state.email) ∧
    (∀ (state : ApplicationState) (f : String → Evaluated),
      (evaluate_candidate state f).job_description = state.job_description ∧
      (evaluate_candidate state f).resume_text = state.resume_text ∧
      (evaluate_candidate state f).job_role = state.job_role ∧
      (evaluate_candidate state f).parsed_resume = state.parsed_resume ∧
      (evaluate_candidate state f).candidate_name = state.candidate_name ∧
      (evaluate_candidate state f).candidate_email = state.candidate_email ∧
      (evaluate_candidate state f).email = state.email) ∧
    (∀ (state : ApplicationState) (gen : EmailGen) (env : Env) (t : Transport),
      (send_email_node state gen env t).job_description = state.job_description ∧
      (send_email_node state gen env t).resume_text = state.resume_text ∧
      (send_email_node state gen env t).job_role = state.job_role ∧
      (send_email_node state gen env t).parsed_resume = state.parsed_resume ∧
      (send_email_node state gen env t).evaluation = state.evaluation ∧
      (send_email_node state gen env t).candidate_name = state.candidate_name ∧
      (send_email_node state gen env t).candidate_email = state.candidate_email) :=
  ⟨fun _ _ => ⟨rfl, rfl, rfl, rfl, rfl⟩,
   fun _ _ => ⟨rfl, rfl, rfl, rfl, rfl, rfl, rfl⟩,
   fun _ _ _ _ => ⟨rfl, rfl, rfl, rfl, rfl, rfl, rfl⟩⟩

/-- C7: the compiled workflow is a fixed linear chain.  Following the
(unique) successor edges from START visits resume_parser, evaluator and
messaging each exactly once and terminates at END; no node has two
outgoing or two incoming edges (no branch, no loop, no retry); and
`run_pipeline` is exactly the sequential composition of the three node
functions in that order, each stage consuming its predecessor's merged
state. -/
theorem c7_linear_single_pass_topology :
    traceFrom 4 .START = [.START, .resumeParser, .evaluator, .messaging, .END] ∧
    (traceFrom 4 .START).count .resumeParser = 1 ∧
    (traceFrom 4 .START).count .evaluator = 1 ∧
    (traceFrom 4 .START).count .messaging = 1 ∧
    (graph_edges.map (fun e => e.1)).Nodup ∧
    (graph_edges.map (fun e => e.2)).Nodup ∧
    nextNode .END = none ∧
    (∀ (init : ApplicationState) (p : String → ResumeParsed) (f : String → Evaluated)
       (gen : EmailGen) (env : Env) (t : Transport),
      run_pipeline init p f gen env t =
        send_email_node (evaluate_candidate (parse_resume init p) f) gen env t) :=
  ⟨by decide, by decide, by decide, by decide, by decide, by decide, by decide,
   fun _ _ _ _ _ _ => rfl⟩

/-- C8: whenever content generation fails, `create_and_send_email` does
not abort: it returns the deterministic fallback — subject
"Application Update", a fixed-form body built only from the candidate
name, the candidate email as recipient — together with an "Error: ..."
status; and `send_email_node` merges that fallback into the run state. -/
theorem c8_generation_failure_deterministic_fallback
    (data : List (String × PyVal)) (e : String) (state : ApplicationState)
    (env : Env) (t : Transport) :
    create_and_send_email data (fun _ => .error e) env t =
      { to_email := pyGet data "candidate_email" (.vStr ""),
        subject := "Application Update",
        body := "Dear " ++ (pyGet data "candidate_name" (.vStr "Candidate")).pyStr
                 ++ ", thank you for your application.",
        send_status := "Error: " ++ e } ∧
    (send_email_node state (fun _ => .error e) env t).email =
      [("to_email", state.candidate_email),
       ("subject", .vStr "Application Update"),
       ("body", .vStr ("Dear " ++ state.candidate_name.pyStr
                        ++ ", thank you for your application."))] :=
  ⟨rfl, rfl⟩

/-- C9: the Scoring stage reads only `job_description` and `resume_text`:
two states agreeing on those two fields produce the same evaluator prompt
and, under the same evaluator collaborator, the same merged evaluation —
whatever their `parsed_resume` / candidate fields contain. -/
theorem c9_scoring_independent_of_extraction
    (s t : ApplicationState) (f : String → Evaluated)
    (hjd : s.job_description = t.job_description)
    (hrt : s.resume_text = t.resume_text) :
    evaluation_prompt s = evaluation_prompt t ∧
    (evaluate_candidate s f).evaluation = (evaluate_candidate t f).evaluation := by
  have hp : evaluation_prompt s = evaluation_prompt t := by
    unfold evaluation_prompt
    rw [hjd, hrt]
  exact ⟨hp, by unfold evaluate_candidate; rw [hp]⟩

/-- C9 witness: two concrete states that differ in `parsed_resume` and in
the candidate fields but agree on the two inputs. -/
theorem c9_scoring_independent_witness :
    evaluation_prompt
        { formInitState with
          parsed_resume := [("full_name", PyVal.vStr "Jane Doe")],
          candidate_name := .vStr "Jane Doe", candidate_email := .vNone } =
      evaluation_prompt formInitState ∧
    (evaluate_candidate
        { formInitState with
          parsed_resume := [("full_name", PyVal.vStr "Jane Doe")],
          candidate_name := .vStr "Jane Doe", candidate_email := .vNone }
        evalLow).evaluation =
      (evaluate_candidate formInitState evalLow).evaluation :=
  c9_scoring_independent_of_extraction
    { formInitState with
      parsed_resume := [("full_name", PyVal.vStr "Jane Doe")],
      candidate_name := .vStr "Jane Doe", candidate_email := .vNone }
    formInitState evalLow rfl rfl

/-- C10 (counterexample): when the parsed resume has no email, the
Notification stage's input and the fallback addressing are `None` — not
the sentinel `"test@example.com"` the claim names, and not the
caller-submitted `"form@caller.com"` either. -/
theorem c10_counterexample_null_extracted_email_addressing :
    pyGet (email_input (evaluate_candidate
        (parse_resume formInitState (fun _ => noEmailResume)) evalLow))
        "candidate_email" (.vStr "absent") = .vNone ∧
    pyGet (run_pipeline formInitState (fun _ => noEmailResume) evalLow failGen envMissing
        okTransport).email "to_email" (.vStr "absent") = .vNone ∧
    PyVal.vNone ≠ .vStr "test@example.com" ∧
    PyVal.vNone ≠ .vStr "form@caller.com" :=
  ⟨rfl, rfl, fun h => PyVal.noConfusion h, fun h => PyVal.noConfusion h⟩

/-- C10 (amended): Extraction unconditionally overwrites the
caller-supplied `candidate_name` / `candidate_email` with the parsed
values (the result does not depend on what the caller put there); the
Notification stage's input carries exactly the extracted email — `None`
when the resume lacks one, the sentinel being dead code — and on the
generation-fallback path the message is addressed to that extracted
value, never to the caller-submitted address. -/
theorem c10_amended_extraction_overwrites_caller_contact
    (init : ApplicationState) (p : String → ResumeParsed) (f : String → Evaluated)
    (v w : PyVal) (e : String) (env : Env) (t : Transport) :
    (parse_resume init p).candidate_email = optStr (p init.resume_text).email ∧
    (parse_resume init p).candidate_name = .vStr (p init.resume_text).full_name ∧
    (parse_resume { init with candidate_name := v, candidate_email := w } p).candidate_email =
      (parse_resume init p).candidate_email ∧
    (parse_resume { init with candidate_name := v, candidate_email := w } p).candidate_name =
      (parse_resume init p).candidate_name ∧
    pyGet (email_input (evaluate_candidate (parse_resume init p) f)) "candidate_email" .vNone =
      optStr (p init.resume_text).email ∧
    pyGet (run_pipeline init p f (fun _ => .error e) env t).email "to_email" .vNone =
      optStr (p init.resume_text).email :=
  ⟨rfl, rfl, rfl, rfl, rfl, rfl⟩
